import Mathlib

/-
Verification of the cape process-and-state supervision layer.

This development shallowly embeds the supervision core of the repository
(`cape_cli.process_utils`, `cape_cli.pid_manager`, `cape_cli.state_manager`,
`cape_cli.workflow_launcher`, `cape_cli.workflow_monitor`,
`cape.cli.state_watcher`) into Lean and proves the spec's testable
properties against the embedding.

Modelling conventions:
- OS-level outcomes that the Python code observes through exceptions
  (process probes, signal sends, file-write failures) are explicit inputs
  of the embedded functions, one constructor per `except` arm of the source.
- The filesystem is passed explicitly: a file is `Option` of its parsed
  content; atomic writes are modelled over the destination content plus a
  flag telling whether the attempt's temporary file is left behind.
- Wall-clock instants are natural numbers (milliseconds for the watcher and
  the monitor cache); Python `datetime` values are a seven-field record
  mirroring year..microsecond, serialized through a faithful model of
  `datetime.isoformat` / `datetime.fromisoformat` restricted to the strings
  this system itself produces.
-/

/-! ## Process probes (`process_utils.is_process_alive`, `send_signal`,
`PIDFileManager.is_process_running`) -/

/-- Outcome of the `os.kill(pid, 0)` existence probe, one constructor per
branch of the source's `try`/`except`: the call succeeds, raises
`ProcessLookupError`, raises `PermissionError`, or raises another `OSError`. -/
inductive ProbeOutcome where
  | ok
  | noSuchProcess
  | permissionDenied
  | otherOSError
deriving DecidableEq, Repr

/-- Outcome of the psutil probe (`psutil.Process(pid)` / `.is_running()`):
either `is_running()` returns a boolean, or the lookup raises
`psutil.NoSuchProcess` or `psutil.AccessDenied`. -/
inductive PsutilOutcome where
  | running (b : Bool)
  | noSuchProcess
  | accessDenied
deriving DecidableEq, Repr

/-- Embeds `PIDFileManager.is_process_running` (pid_manager.py): `pid <= 0`
is rejected before probing; otherwise the `os.kill(pid, 0)` outcome is mapped
exactly as the source's `except` arms do (`ProcessLookupError` → not running,
`PermissionError` → running, other `OSError` → not running). -/
def PIDFileManager.is_process_running (pid : Int) (probe : ProbeOutcome) : Bool :=
  if pid ≤ 0 then false
  else
    match probe with
    | .ok => true
    | .noSuchProcess => false
    | .permissionDenied => true
    | .otherOSError => false

/-- Embeds `process_utils.is_process_alive`: `pid <= 0` is rejected before
probing; with psutil available the psutil outcome decides (note the source
catches `psutil.NoSuchProcess` and `psutil.AccessDenied` together and returns
`False` for both); without psutil the `os.kill(pid, 0)` fallback decides,
with `PermissionError` mapped to `True`. -/
def is_process_alive (pid : Int) (hasPsutil : Bool) (ps : PsutilOutcome)
    (osProbe : ProbeOutcome) : Bool :=
  if pid ≤ 0 then false
  else if hasPsutil then
    match ps with
    | .running b => b
    | .noSuchProcess => false
    | .accessDenied => false
  else
    match osProbe with
    | .ok => true
    | .noSuchProcess => false
    | .permissionDenied => true
    | .otherOSError => false

/-- Embeds `process_utils.send_signal`: `pid <= 0` is rejected; otherwise the
send succeeds exactly when `os.kill(pid, sig)` raises nothing (every listed
exception — `ProcessLookupError`, `PermissionError`, `OSError` — yields
`False`). -/
def send_signal (pid : Int) (probe : ProbeOutcome) : Bool :=
  if pid ≤ 0 then false
  else
    match probe with
    | .ok => true
    | .noSuchProcess => false
    | .permissionDenied => false
    | .otherOSError => false

/-! ## Python `datetime` and its ISO-8601 serialization -/

/-- Mirror of a Python `datetime.datetime` value (naive; the system only uses
`datetime.now()`). -/
structure PyDateTime where
  year : Nat
  month : Nat
  day : Nat
  hour : Nat
  minute : Nat
  second : Nat
  microsecond : Nat
deriving DecidableEq, Repr

/-- Gregorian leap-year rule, as used by Python's `datetime`. -/
def isLeapYear (y : Nat) : Bool :=
  (y % 4 == 0 && y % 100 != 0) || y % 400 == 0

/-- Number of days of month `m` of year `y` (Python `calendar.monthrange`). -/
def daysInMonth (y m : Nat) : Nat :=
  if m == 2 then (if isLeapYear y then 29 else 28)
  else if m == 4 || m == 6 || m == 9 || m == 11 then 30
  else 31

/-- Range invariant of a constructed Python `datetime` (the constructor
rejects anything outside these bounds). -/
def PyDateTime.valid (d : PyDateTime) : Bool :=
  1 ≤ d.year && d.year ≤ 9999 &&
  1 ≤ d.month && d.month ≤ 12 &&
  1 ≤ d.day && d.day ≤ daysInMonth d.year d.month &&
  d.hour < 24 && d.minute < 60 && d.second < 60 && d.microsecond < 1000000

/-- Rank of a datetime: strictly monotone in the lexicographic field order,
used to compare timestamps. -/
def PyDateTime.rank (d : PyDateTime) : Nat :=
  ((((d.year * 13 + d.month) * 32 + d.day) * 24 + d.hour) * 60 + d.minute) * 60000000 +
    d.second * 1000000 + d.microsecond

/-- Two-digit zero-padded decimal rendering (`%02d`). -/
def pad2 (n : Nat) : List Char :=
  [Nat.digitChar (n / 10), Nat.digitChar (n % 10)]

/-- Four-digit zero-padded decimal rendering (`%04d`). -/
def pad4 (n : Nat) : List Char :=
  [Nat.digitChar (n / 1000), Nat.digitChar (n / 100 % 10),
   Nat.digitChar (n / 10 % 10), Nat.digitChar (n % 10)]

/-- Six-digit zero-padded decimal rendering (`%06d`). -/
def pad6 (n : Nat) : List Char :=
  [Nat.digitChar (n / 100000), Nat.digitChar (n / 10000 % 10),
   Nat.digitChar (n / 1000 % 10), Nat.digitChar (n / 100 % 10),
   Nat.digitChar (n / 10 % 10), Nat.digitChar (n % 10)]

/-- Embeds `datetime.isoformat()` for naive datetimes:
`YYYY-MM-DDTHH:MM:SS`, with `.ffffff` appended exactly when the microsecond
field is nonzero. -/
def PyDateTime.isoformat (d : PyDateTime) : String :=
  ⟨pad4 d.year ++ '-' :: pad2 d.month ++ '-' :: pad2 d.day ++
   'T' :: pad2 d.hour ++ ':' :: pad2 d.minute ++ ':' :: pad2 d.second ++
   (if d.microsecond == 0 then [] else '.' :: pad6 d.microsecond)⟩

/-- Decimal value of two digit characters. -/
def digits2 (a b : Char) : Nat :=
  (a.toNat - 48) * 10 + (b.toNat - 48)

/-- Decimal value of four digit characters. -/
def digits4 (a b c d : Char) : Nat :=
  ((a.toNat - 48) * 10 + (b.toNat - 48)) * 100 + digits2 c d

/-- Decimal value of six digit characters. -/
def digits6 (a b c d e f : Char) : Nat :=
  digits4 a b c d * 100 + digits2 e f

/-- Shared field-range check of `datetime.fromisoformat` (the underlying
`datetime` constructor validates every field). -/
def isoFieldsValid (y mo dd hh mi ss us : Nat) : Bool :=
  1 ≤ y && y ≤ 9999 && 1 ≤ mo && mo ≤ 12 && 1 ≤ dd && dd ≤ daysInMonth y mo &&
  hh < 24 && mi < 60 && ss < 60 && us < 1000000

/-- Embeds `datetime.fromisoformat` restricted to the shapes this system
itself writes (`YYYY-MM-DDTHH:MM:SS` with optional `.ffffff`); any other
input is rejected. The source lets `fromisoformat` raise on malformed
strings — rejection stands in for that raise (no caller of the embedding
distinguishes the two). -/
def PyDateTime.fromisoformat (s : String) : Option PyDateTime :=
  match s.data with
  | [y1, y2, y3, y4, c1, m1, m2, c2, d1, d2, c3,
     h1, h2, c4, i1, i2, c5, s1, s2] =>
    if (c1 == '-' && c2 == '-' && c3 == 'T' && c4 == ':' && c5 == ':') &&
       (y1.isDigit && y2.isDigit && y3.isDigit && y4.isDigit &&
        m1.isDigit && m2.isDigit && d1.isDigit && d2.isDigit &&
        h1.isDigit && h2.isDigit && i1.isDigit && i2.isDigit &&
        s1.isDigit && s2.isDigit) then
      if isoFieldsValid (digits4 y1 y2 y3 y4) (digits2 m1 m2) (digits2 d1 d2)
          (digits2 h1 h2) (digits2 i1 i2) (digits2 s1 s2) 0 then
        some ⟨digits4 y1 y2 y3 y4, digits2 m1 m2, digits2 d1 d2,
              digits2 h1 h2, digits2 i1 i2, digits2 s1 s2, 0⟩
      else none
    else none
  | [y1, y2, y3, y4, c1, m1, m2, c2, d1, d2, c3,
     h1, h2, c4, i1, i2, c5, s1, s2, c6, u1, u2, u3, u4, u5, u6] =>
    if (c1 == '-' && c2 == '-' && c3 == 'T' && c4 == ':' && c5 == ':' &&
        c6 == '.') &&
       (y1.isDigit && y2.isDigit && y3.isDigit && y4.isDigit &&
        m1.isDigit && m2.isDigit && d1.isDigit && d2.isDigit &&
        h1.isDigit && h2.isDigit && i1.isDigit && i2.isDigit &&
        s1.isDigit && s2.isDigit && u1.isDigit && u2.isDigit &&
        u3.isDigit && u4.isDigit && u5.isDigit && u6.isDigit) then
      if isoFieldsValid (digits4 y1 y2 y3 y4) (digits2 m1 m2) (digits2 d1 d2)
          (digits2 h1 h2) (digits2 i1 i2) (digits2 s1 s2)
          (digits6 u1 u2 u3 u4 u5 u6) then
        some ⟨digits4 y1 y2 y3 y4, digits2 m1 m2, digits2 d1 d2,
              digits2 h1 h2, digits2 i1 i2, digits2 s1 s2,
              digits6 u1 u2 u3 u4 u5 u6⟩
      else none
    else none
  | _ => none

/-! ## Workflow state records (`cape_cli.models.WorkflowState`,
`state_manager.StateManager`) -/

/-- Modelled from the spec: the `WorkflowState` Pydantic model lives in
`cape_cli/models.py`, which is not among the given sources; its field
inventory and types follow spec §3 (workflow_id, issue_id, status, pid,
started_at, updated_at, optional current_step, optional error_message) and
the constructor calls in `workflow_launcher.py` / the state-manager tests.
The status literal constraint is checked by `validStatus` below. -/
structure WorkflowState where
  workflow_id : String
  issue_id : Int
  status : String
  pid : Int
  started_at : PyDateTime
  updated_at : PyDateTime
  current_step : Option String
  error_message : Option String
deriving DecidableEq, Repr

/-- Modelled from the spec: the `status` field is one of the five literals of
spec §3 (`initializing | running | completed | failed | stopped`), enforced
by Pydantic validation. -/
def validStatus (s : String) : Bool :=
  ["initializing", "running", "completed", "failed", "stopped"].contains s

/-- Validity of a whole record: the status literal is admissible and both
datetime fields satisfy the Python `datetime` constructor invariant. -/
def WorkflowState.isValid (st : WorkflowState) : Bool :=
  validStatus st.status && st.started_at.valid && st.updated_at.valid

/-- JSON scalar values appearing in a serialized state record. -/
inductive JsonValue where
  | jstr (s : String)
  | jint (n : Int)
  | jnull
deriving DecidableEq, Repr

/-- Serialization of an optional string field (`model_dump` yields `None`
for an unset optional, serialized as JSON `null`). -/
def optionToJson : Option String → JsonValue
  | none => JsonValue.jnull
  | some s => JsonValue.jstr s

/-- Embeds the serialization step of `StateManager.write_state`:
`state.model_dump()` followed by the loop replacing each `datetime` value
with `value.isoformat()`. The result is the JSON object `json.dump` writes
(`json.dump`/`json.loads` round-trip the object exactly and are not
re-modelled). -/
def stateToJsonDict (st : WorkflowState) : List (String × JsonValue) :=
  [("workflow_id", JsonValue.jstr st.workflow_id),
   ("issue_id", JsonValue.jint st.issue_id),
   ("status", JsonValue.jstr st.status),
   ("pid", JsonValue.jint st.pid),
   ("started_at", JsonValue.jstr st.started_at.isoformat),
   ("updated_at", JsonValue.jstr st.updated_at.isoformat),
   ("current_step", optionToJson st.current_step),
   ("error_message", optionToJson st.error_message)]

/-- Deserialization of an optional string field (JSON `null` → unset,
string → set; any other value fails Pydantic validation). -/
def jsonToOption : JsonValue → Option (Option String)
  | JsonValue.jnull => some none
  | JsonValue.jstr s => some (some s)
  | JsonValue.jint _ => none

/-- Embeds the parsing step of `StateManager.read_state`: the loop replacing
the `started_at` / `updated_at` strings via `datetime.fromisoformat`,
followed by `WorkflowState(**state_dict)` (Pydantic validation of required
fields, field types and the status literal). `none` stands for
`ValidationError`. -/
def stateFromJsonDict (dict : List (String × JsonValue)) : Option WorkflowState :=
  match List.lookup "workflow_id" dict, List.lookup "issue_id" dict,
        List.lookup "status" dict, List.lookup "pid" dict,
        List.lookup "started_at" dict, List.lookup "updated_at" dict,
        List.lookup "current_step" dict, List.lookup "error_message" dict with
  | some (JsonValue.jstr wid), some (JsonValue.jint iid),
    some (JsonValue.jstr stat), some (JsonValue.jint pid),
    some (JsonValue.jstr sa), some (JsonValue.jstr ua), some cs, some em =>
    match PyDateTime.fromisoformat sa, PyDateTime.fromisoformat ua,
          jsonToOption cs, jsonToOption em with
    | some dsa, some dua, some ocs, some oem =>
      if validStatus stat then
        some ⟨wid, iid, stat, pid, dsa, dua, ocs, oem⟩
      else none
    | _, _, _, _ => none
  | _, _, _, _, _, _, _, _ => none

/-! ## Atomic file writes (`PIDFileManager.write_pid`,
`StateManager.write_state`) -/

/-- Failure injection for one atomic-write attempt, one flag per fallible
step of the source: `tempfile.mkstemp` (runs before the `try` block, so its
failure propagates with no temp file created), the `f.write` inside the
`try`, the `os.replace` rename, and the `os.unlink` of the cleanup handler
(whose `OSError` the source swallows). -/
structure AtomicWriteFailures where
  mkstempFails : Bool
  writeFails : Bool
  renameFails : Bool
  unlinkFails : Bool
deriving DecidableEq, Repr

/-- Result of one atomic-write attempt: the destination file's content
afterwards, whether this attempt's temporary file is left in the directory,
and whether the call returned normally (`ok = false` means the exception
propagated to the caller). -/
structure FileWriteResult (α : Type) where
  dest : Option α
  tempLeft : Bool
  ok : Bool
deriving DecidableEq, Repr

/-- Embeds the shared temp-file-then-rename pattern of
`PIDFileManager.write_pid` and `StateManager.write_state`: create a
temporary file in the destination directory, write the full content, rename
it over the destination with `os.replace`; on any failure inside the `try`
block, unlink the temporary file (ignoring `OSError`) and re-raise. -/
def atomicWrite {α : Type} (dest0 : Option α) (content : α)
    (f : AtomicWriteFailures) : FileWriteResult α :=
  if f.mkstempFails then ⟨dest0, false, false⟩
  else if f.writeFails then ⟨dest0, f.unlinkFails, false⟩
  else if f.renameFails then ⟨dest0, f.unlinkFails, false⟩
  else ⟨some content, false, true⟩

/-- Embeds `PIDFileManager.write_pid`: atomically writes `str(pid)` to the
workflow's PID file. -/
def PIDFileManager.write_pid (dest0 : Option String) (pid : Int)
    (f : AtomicWriteFailures) : FileWriteResult String :=
  atomicWrite dest0 (toString pid) f

/-- Embeds `StateManager.write_state`: atomically writes the serialized
JSON object of the record to the workflow's state file. -/
def StateManager.write_state (dest0 : Option (List (String × JsonValue)))
    (st : WorkflowState) (f : AtomicWriteFailures) :
    FileWriteResult (List (String × JsonValue)) :=
  atomicWrite dest0 (stateToJsonDict st) f

/-- Embeds `StateManager.read_state`: the state file is either absent or
unparsable (`none` — `FileNotFoundError`, `json.JSONDecodeError`, `OSError`
are all absorbed into `None`) or holds a JSON object, which is then parsed
and validated by `stateFromJsonDict`. -/
def StateManager.read_state (file : Option (List (String × JsonValue))) :
    Option WorkflowState :=
  match file with
  | none => none
  | some d => stateFromJsonDict d

/-! ## Partial state updates (`StateManager.update_state`) -/

/-- Keyword arguments of one `StateManager.update_state(workflow_id,
**updates)` call: `some v` means the field name appears in `updates` with
value `v` (duck-typed in the source; one optional slot per model field
here). -/
structure StateUpdates where
  workflow_id : Option String
  issue_id : Option Int
  status : Option String
  pid : Option Int
  started_at : Option PyDateTime
  updated_at : Option PyDateTime
  current_step : Option (Option String)
  error_message : Option (Option String)
deriving DecidableEq, Repr

/-- Update with no field supplied (`{}`). -/
def StateUpdates.empty : StateUpdates :=
  ⟨none, none, none, none, none, none, none, none⟩

/-- Embeds the merge step of `StateManager.update_state`:
`state_dict.update(updates)` followed by the unconditional
`state_dict["updated_at"] = datetime.now()` — so a supplied `updated_at` is
overwritten by `now` regardless. -/
def applyUpdates (st : WorkflowState) (u : StateUpdates) (now : PyDateTime) :
    WorkflowState :=
  { workflow_id := u.workflow_id.getD st.workflow_id
    issue_id := u.issue_id.getD st.issue_id
    status := u.status.getD st.status
    pid := u.pid.getD st.pid
    started_at := u.started_at.getD st.started_at
    updated_at := now
    current_step := u.current_step.getD st.current_step
    error_message := u.error_message.getD st.error_message }

/-- Embeds `StateManager.update_state`: read the record (`none` when the
read fails), merge the updates, re-stamp `updated_at`, re-validate
(`WorkflowState(**state_dict)` — in the typed embedding only the status
literal can fail), and on success write the merged record back (the caller
receives the record that was written; `none` means nothing was written). -/
def StateManager.update_state (file : Option WorkflowState) (u : StateUpdates)
    (now : PyDateTime) : Option WorkflowState :=
  match file with
  | none => none
  | some st =>
    let updated := applyUpdates st u now
    if validStatus updated.status then some updated else none

/-! ## PID registry scans (`PIDFileManager.cleanup_stale_pids`,
`list_active_workflows`, `recover_orphaned_workflows`) -/

/-- Embeds `PIDFileManager.cleanup_stale_pids` over the PID directory: each
entry `(workflow_id, read_pid result)` is kept when the recorded pid probes
as running and deleted otherwise (an unreadable PID file — `read_pid`
returning `None` — is also deleted); returns the directory afterwards and
the removed workflow ids in scan order. `probeOf` gives the `os.kill`
outcome the probe of each pid observes. -/
def PIDFileManager.cleanup_stale_pids :
    List (String × Option Int) → (Int → ProbeOutcome) →
    List (String × Option Int) × List String
  | [], _ => ([], [])
  | (wid, opid) :: rest, probeOf =>
    let r := PIDFileManager.cleanup_stale_pids rest probeOf
    match opid with
    | none => (r.1, wid :: r.2)
    | some p =>
      if PIDFileManager.is_process_running p (probeOf p) then
        ((wid, some p) :: r.1, r.2)
      else (r.1, wid :: r.2)

/-- Embeds `PIDFileManager.list_active_workflows`: the `(workflow_id, pid)`
pairs of the PID directory whose file is readable and whose pid probes as
running, in scan order. -/
def PIDFileManager.list_active_workflows :
    List (String × Option Int) → (Int → ProbeOutcome) → List (String × Int)
  | [], _ => []
  | (wid, opid) :: rest, probeOf =>
    let r := PIDFileManager.list_active_workflows rest probeOf
    match opid with
    | none => r
    | some p =>
      if PIDFileManager.is_process_running p (probeOf p) then (wid, p) :: r
      else r

/-- Error message written by orphan recovery (pid_manager.py line 230). -/
def orphanMessage : String := "Process terminated unexpectedly (orphaned state)"

/-- Update passed by `recover_orphaned_workflows` to
`StateManager.update_state`: `status="failed"`,
`error_message=orphanMessage`. -/
def recoverUpdates : StateUpdates :=
  { StateUpdates.empty with
      status := some "failed", error_message := some (some orphanMessage) }

/-- Step of `recover_orphaned_workflows` for one state-directory entry
`(workflow_id, read_state result)`: entries with a PID file, unreadable
entries, and entries whose status is not `initializing`/`running` are left
untouched; the rest are updated to `failed` and reported as recovered. -/
def recoverStep (pidDir : List String) (now : PyDateTime)
    (entry : String × Option WorkflowState) :
    (String × Option WorkflowState) × Option String :=
  if pidDir.contains entry.1 then (entry, none)
  else
    match entry.2 with
    | none => (entry, none)
    | some st =>
      if st.status == "initializing" || st.status == "running" then
        match StateManager.update_state (some st) recoverUpdates now with
        | some r => ((entry.1, some r), some entry.1)
        | none => (entry, some entry.1)
      else (entry, none)

/-- Embeds `PIDFileManager.recover_orphaned_workflows`: scan every state
file, and for each one with no corresponding PID file whose record reads
back with status `initializing` or `running`, force it to `failed` via
`StateManager.update_state` and report its workflow id (the id is appended
whether or not the update validated, as in the source). Returns the state
directory afterwards and the recovered ids in scan order. -/
def PIDFileManager.recover_orphaned_workflows
    (stateDir : List (String × Option WorkflowState)) (pidDir : List String)
    (now : PyDateTime) :
    List (String × Option WorkflowState) × List String :=
  (stateDir.map (fun e => (recoverStep pidDir now e).1),
   stateDir.filterMap (fun e => (recoverStep pidDir now e).2))

/-! ## Termination (`process_utils.terminate_process`) -/

/-- Result of one `terminate_process` call: the returned boolean, and
whether a SIGTERM / SIGKILL send was attempted. -/
structure TerminateResult where
  result : Bool
  termSent : Bool
  killSent : Bool
deriving DecidableEq, Repr

/-- Polling loop of `terminate_process` (`while time.time() - start_time <
timeout: if not is_process_alive(pid): return True; time.sleep(0.1)`): the
liveness observations are a trace `alive` indexed by abstract instants, one
instant per probe; `fuel` is the number of 0.1-second polls the `timeout`
window admits. Returns whether a poll observed the process dead, together
with the instant after the loop. -/
def pollLoop (alive : Nat → Bool) : Nat → Nat → Bool × Nat
  | t, 0 => (false, t)
  | t, fuel + 1 => if alive t then pollLoop alive (t + 1) fuel else (true, t)

/-- Embeds `process_utils.terminate_process` over a ground-truth liveness
trace `alive` (one abstract instant per probe or signal, in program order:
entry probe at 0, SIGTERM send at 1, loop probes from 2, then the
escalation probe, the SIGKILL send, and the final probe). A signal send
succeeds exactly when the target is alive at the send instant
(`ProcessLookupError` otherwise; permission failures are not modelled — the
supervisor signals its own children). `polls` is the loop iteration count
the timeout admits. -/
def terminate_process (alive : Nat → Bool) (polls : Nat) : TerminateResult :=
  if !(alive 0) then ⟨true, false, false⟩
  else if !(alive 1) then ⟨false, true, false⟩
  else
    match pollLoop alive 2 polls with
    | (true, _) => ⟨true, true, false⟩
    | (false, t) =>
      if alive t then ⟨!(alive (t + 2)), true, true⟩
      else ⟨!(alive (t + 1)), true, false⟩

/-! ## Launching (`WorkflowLauncher.launch_workflow`) -/

/-- On-disk records of one workflow: its PID file and its state file. -/
structure LaunchFS where
  pidFile : Option Int
  stateFile : Option WorkflowState
deriving DecidableEq, Repr

/-- Failure injection for one `launch_workflow` call, one flag per fallible
step inside its `try` block: the `subprocess.Popen` spawn, the
`PIDFileManager.write_pid` call, the `StateManager.write_state` call, and
the best-effort `update_issue_status` call (whose exception the source
swallows). -/
structure LaunchFailures where
  spawnFails : Bool
  writePidFails : Bool
  writeStateFails : Bool
  updateIssueFails : Bool
deriving DecidableEq, Repr

/-- Embeds `WorkflowLauncher.launch_workflow`: spawn the detached daemon,
write the PID file, write the initial state record
(`status="initializing"`, `started_at = updated_at = now`), best-effort
update the issue status, and return the workflow id; any failure is
re-raised as `RuntimeError` (`Except.error ()`). A failed atomic write
leaves the corresponding file unchanged; the source attempts no cleanup of
records already written when a later step fails. -/
def WorkflowLauncher.launch_workflow (fs : LaunchFS) (issue_id : Int)
    (adw_id : String) (pid : Int) (now : PyDateTime) (f : LaunchFailures) :
    Except Unit String × LaunchFS :=
  if f.spawnFails then (Except.error (), fs)
  else if f.writePidFails then (Except.error (), fs)
  else
    let fs1 : LaunchFS := { fs with pidFile := some pid }
    if f.writeStateFails then (Except.error (), fs1)
    else
      let st : WorkflowState :=
        ⟨adw_id, issue_id, "initializing", pid, now, now, none, none⟩
      (Except.ok adw_id, { fs1 with stateFile := some st })

/-! ## State file watcher (`state_watcher.StateFileEventHandler`) -/

/-- One watchdog file-modification event: directory flag, source path, and
the wall-clock instant (`time.time()`, here in milliseconds) at which the
handler processes it. -/
structure FsEvent where
  is_directory : Bool
  src_path : String
  time : Nat
deriving DecidableEq, Repr

/-- Debounce window of the handler (`self.debounce_interval = 0.1`, i.e.
100 ms). -/
def debounce_interval : Nat := 100

/-- Mutable state of a `StateFileEventHandler`: the ids with a registered
callback, and `last_event_time` mapping each id to the instant of its last
dispatched callback. -/
structure StateFileEventHandler where
  callbacks : List String
  last_event_time : List (String × Nat)
deriving DecidableEq, Repr

/-- Freshly constructed handler (`__init__`: empty `last_event_time`). -/
def StateFileEventHandler.init (cbs : List String) : StateFileEventHandler :=
  ⟨cbs, []⟩

/-- Update of one key of an association list, matching Python dict
assignment (existing key keeps its position). -/
def assocSet {α : Type} (l : List (String × α)) (k : String) (v : α) :
    List (String × α) :=
  match l with
  | [] => [(k, v)]
  | (k2, v2) :: rest =>
    if k2 == k then (k, v) :: rest else (k2, v2) :: assocSet rest k v

/-- Embeds `Path(p).stem`: the final path component with its last suffix
removed. -/
def pathStem (p : String) : String :=
  let base := (p.splitOn "/").getLastD p
  let parts := base.splitOn "."
  if parts.length ≤ 1 then base
  else String.intercalate "." parts.dropLast

/-- Embeds `StateFileEventHandler.on_modified`: directory events and
non-`.json` paths are ignored; an event for an id without a registered
callback is ignored; an event closer than `debounce_interval` to the id's
last dispatch (`last_event_time.get(workflow_id, 0)`) is ignored; otherwise
`last_event_time` is stamped and the callback dispatched (its own
exceptions are swallowed by the source and do not affect the handler).
Returns the handler afterwards and the dispatched `(id, time)`, if any. -/
def StateFileEventHandler.on_modified (h : StateFileEventHandler)
    (e : FsEvent) : StateFileEventHandler × Option (String × Nat) :=
  if e.is_directory then (h, none)
  else if !(e.src_path.endsWith ".json") then (h, none)
  else
    let workflow_id := pathStem e.src_path
    if h.callbacks.contains workflow_id then
      let last := (List.lookup workflow_id h.last_event_time).getD 0
      if e.time - last < debounce_interval then (h, none)
      else
        (⟨h.callbacks, assocSet h.last_event_time workflow_id e.time⟩,
         some (workflow_id, e.time))
    else (h, none)

/-- Feeds a sequence of modification events to the handler, collecting the
dispatched callbacks in order. -/
def runEvents (h : StateFileEventHandler) :
    List FsEvent → StateFileEventHandler × List (String × Nat)
  | [] => (h, [])
  | e :: rest =>
    let (h2, d) := h.on_modified e
    let (h3, ds) := runEvents h2 rest
    (h3, d.toList ++ ds)

/-- Instants of the dispatched callbacks for one workflow id, in dispatch
order. -/
def dispatchTimes (wid : String) (ds : List (String × Nat)) : List Nat :=
  (ds.filter (fun d => d.1 == wid)).map (fun d => d.2)

/-! ## Monitor status cache (`WorkflowMonitor.get_workflow_status`) -/

/-- Cache TTL of `WorkflowMonitor` (`timedelta(seconds=5)`, in
milliseconds). -/
def cache_ttl : Nat := 5000

/-- Embeds `WorkflowMonitor.get_workflow_status` over the shared class-level
cache (entries are `(workflow_id, (state, stamp))`): with `use_cache` set, a
cache entry younger than the TTL is returned without touching the
filesystem; otherwise the state file is read (`file` is the
`StateManager.read_state` result this call would observe) and, when the
read succeeds, the cache entry is (re)stamped — also when `use_cache` is
false. Returns the result and the cache afterwards. -/
def WorkflowMonitor.get_workflow_status
    (cache : List (String × WorkflowState × Nat)) (workflow_id : String)
    (use_cache : Bool) (file : Option WorkflowState) (now : Nat) :
    Option WorkflowState × List (String × WorkflowState × Nat) :=
  match (if use_cache then List.lookup workflow_id cache else none) with
  | some (st, stamp) =>
    if now - stamp < cache_ttl then (some st, cache)
    else
      match file with
      | some s => (some s, assocSet cache workflow_id (s, now))
      | none => (none, cache)
  | none =>
    match file with
    | some s => (some s, assocSet cache workflow_id (s, now))
    | none => (none, cache)

/-! ## Concrete sample values and spec-side characterizations -/

/-- Fixed sample instant used by concrete witnesses. -/
def dt2024 : PyDateTime := ⟨2024, 1, 1, 12, 0, 0, 0⟩

/-- Later sample instant used by concrete witnesses. -/
def dt2024b : PyDateTime := ⟨2024, 1, 1, 12, 5, 0, 500000⟩

/-- Sample valid record used by concrete witnesses. -/
def sampleState : WorkflowState :=
  ⟨"wf-1", 42, "running", 1234, dt2024, dt2024, some "classify", none⟩

/-- Spec-side description of a live PID-directory entry: the file is
readable and its recorded pid probes as running (the theorem about
`cleanup_stale_pids` compares the source scan against this predicate). -/
def aliveEntry (probeOf : Int → ProbeOutcome) (e : String × Option Int) : Bool :=
  match e.2 with
  | some p => PIDFileManager.is_process_running p (probeOf p)
  | none => false

/-- Spec-side description of the `(workflow_id, pid)` pair an entry
contributes to the active list: defined exactly when the entry is live. -/
def activePair (probeOf : Int → ProbeOutcome) (e : String × Option Int) :
    Option (String × Int) :=
  match e.2 with
  | some p =>
    if PIDFileManager.is_process_running p (probeOf p) then some (e.1, p) else none
  | none => none

/-- Last dispatch instant the handler has recorded for an id
(`self.last_event_time.get(workflow_id, 0)`). -/
def StateFileEventHandler.lastDispatch (h : StateFileEventHandler)
    (wid : String) : Nat :=
  (List.lookup wid h.last_event_time).getD 0

/-! ## Supporting lemmas -/

/-- Digit characters are recognized by `Char.isDigit`. -/
lemma digitChar_isDigit (n : Nat) (h : n < 10) : (Nat.digitChar n).isDigit = true := by
  interval_cases n <;> decide

/-- Code point of a digit character. -/
lemma toNat_digitChar (n : Nat) (h : n < 10) : (Nat.digitChar n).toNat = 48 + n := by
  interval_cases n <;> decide

/-- Two zero-padded digits decode to the encoded number. -/
lemma digits2_pad2 (n : Nat) (h : n < 100) :
    digits2 (Nat.digitChar (n / 10)) (Nat.digitChar (n % 10)) = n := by
  have h1 : n / 10 < 10 := by omega
  have h2 : n % 10 < 10 := by omega
  simp only [digits2, toNat_digitChar _ h1, toNat_digitChar _ h2]
  omega

/-- Four zero-padded digits decode to the encoded number. -/
lemma digits4_pad4 (n : Nat) (h : n < 10000) :
    digits4 (Nat.digitChar (n / 1000)) (Nat.digitChar (n / 100 % 10))
      (Nat.digitChar (n / 10 % 10)) (Nat.digitChar (n % 10)) = n := by
  have h1 : n / 1000 < 10 := by omega
  have h2 : n / 100 % 10 < 10 := by omega
  have h3 : n / 10 % 10 < 10 := by omega
  have h4 : n % 10 < 10 := by omega
  simp only [digits4, digits2, toNat_digitChar _ h1, toNat_digitChar _ h2,
    toNat_digitChar _ h3, toNat_digitChar _ h4]
  omega

/-- Six zero-padded digits decode to the encoded number. -/
lemma digits6_pad6 (n : Nat) (h : n < 1000000) :
    digits6 (Nat.digitChar (n / 100000)) (Nat.digitChar (n / 10000 % 10))
      (Nat.digitChar (n / 1000 % 10)) (Nat.digitChar (n / 100 % 10))
      (Nat.digitChar (n / 10 % 10)) (Nat.digitChar (n % 10)) = n := by
  have h1 : n / 100000 < 10 := by omega
  have h2 : n / 10000 % 10 < 10 := by omega
  have h3 : n / 1000 % 10 < 10 := by omega
  have h4 : n / 100 % 10 < 10 := by omega
  have h5 : n / 10 % 10 < 10 := by omega
  have h6 : n % 10 < 10 := by omega
  simp only [digits6, digits4, digits2, toNat_digitChar _ h1, toNat_digitChar _ h2,
    toNat_digitChar _ h3, toNat_digitChar _ h4, toNat_digitChar _ h5,
    toNat_digitChar _ h6]
  omega

/-- Serialization round trip of datetimes: `fromisoformat` recovers exactly
the datetime that `isoformat` rendered. -/
lemma fromisoformat_isoformat (d : PyDateTime) (h : d.valid = true) :
    PyDateTime.fromisoformat d.isoformat = some d := by
  obtain ⟨y, mo, dd, hh, mi, ss, us⟩ := d
  simp only [PyDateTime.valid, Bool.and_eq_true, decide_eq_true_eq] at h
  obtain ⟨⟨⟨⟨⟨⟨⟨⟨⟨hy1, hy2⟩, hmo1⟩, hmo2⟩, hd1⟩, hd2⟩, hh1⟩, hmi1⟩, hs1⟩, hus⟩ := h
  have hy : y < 10000 := by omega
  have hmo : mo < 100 := by omega
  have hdd100 : dd < 100 := by
    have : daysInMonth y mo ≤ 31 := by
      unfold daysInMonth
      split
      · split <;> omega
      · split <;> omega
    omega
  have hhh : hh < 100 := by omega
  have hmi : mi < 100 := by omega
  have hss : ss < 100 := by omega
  have hval : isoFieldsValid y mo dd hh mi ss us = true := by
    simp only [isoFieldsValid, Bool.and_eq_true, decide_eq_true_eq]
    omega
  by_cases h0 : us = 0
  · subst h0
    simp only [PyDateTime.isoformat, pad4, pad2, pad6, beq_self_eq_true, if_pos,
      List.cons_append, List.nil_append, PyDateTime.fromisoformat]
    simp only [digitChar_isDigit _ (by omega : y / 1000 < 10),
      digitChar_isDigit _ (by omega : y / 100 % 10 < 10),
      digitChar_isDigit _ (by omega : y / 10 % 10 < 10),
      digitChar_isDigit _ (by omega : y % 10 < 10),
      digitChar_isDigit _ (by omega : mo / 10 < 10),
      digitChar_isDigit _ (by omega : mo % 10 < 10),
      digitChar_isDigit _ (by omega : dd / 10 < 10),
      digitChar_isDigit _ (by omega : dd % 10 < 10),
      digitChar_isDigit _ (by omega : hh / 10 < 10),
      digitChar_isDigit _ (by omega : hh % 10 < 10),
      digitChar_isDigit _ (by omega : mi / 10 < 10),
      digitChar_isDigit _ (by omega : mi % 10 < 10),
      digitChar_isDigit _ (by omega : ss / 10 < 10),
      digitChar_isDigit _ (by omega : ss % 10 < 10),
      digits4_pad4 y hy, digits2_pad2 mo hmo, digits2_pad2 dd hdd100,
      digits2_pad2 hh hhh, digits2_pad2 mi hmi, digits2_pad2 ss hss,
      hval, Bool.and_true, Bool.true_and, if_true]
  · have h0b : (us == 0) = false := by simp [h0]
    simp only [PyDateTime.isoformat, pad4, pad2, pad6, h0b, Bool.false_eq_true,
      if_false, List.cons_append, List.nil_append, PyDateTime.fromisoformat]
    simp only [digitChar_isDigit _ (by omega : y / 1000 < 10),
      digitChar_isDigit _ (by omega : y / 100 % 10 < 10),
      digitChar_isDigit _ (by omega : y / 10 % 10 < 10),
      digitChar_isDigit _ (by omega : y % 10 < 10),
      digitChar_isDigit _ (by omega : mo / 10 < 10),
      digitChar_isDigit _ (by omega : mo % 10 < 10),
      digitChar_isDigit _ (by omega : dd / 10 < 10),
      digitChar_isDigit _ (by omega : dd % 10 < 10),
      digitChar_isDigit _ (by omega : hh / 10 < 10),
      digitChar_isDigit _ (by omega : hh % 10 < 10),
      digitChar_isDigit _ (by omega : mi / 10 < 10),
      digitChar_isDigit _ (by omega : mi % 10 < 10),
      digitChar_isDigit _ (by omega : ss / 10 < 10),
      digitChar_isDigit _ (by omega : ss % 10 < 10),
      digitChar_isDigit _ (by omega : us / 100000 < 10),
      digitChar_isDigit _ (by omega : us / 10000 % 10 < 10),
      digitChar_isDigit _ (by omega : us / 1000 % 10 < 10),
      digitChar_isDigit _ (by omega : us / 100 % 10 < 10),
      digitChar_isDigit _ (by omega : us / 10 % 10 < 10),
      digitChar_isDigit _ (by omega : us % 10 < 10),
      digits4_pad4 y hy, digits2_pad2 mo hmo, digits2_pad2 dd hdd100,
      digits2_pad2 hh hhh, digits2_pad2 mi hmi, digits2_pad2 ss hss,
      digits6_pad6 us hus,
      hval, Bool.and_true, Bool.true_and, if_true]
    rfl

/-- Lookup after updating the same key. -/
lemma lookup_assocSet {α : Type} (l : List (String × α)) (k : String) (v : α) :
    List.lookup k (assocSet l k v) = some v := by
  induction l with
  | nil => simp [assocSet, List.lookup]
  | cons hd tl ih =>
    obtain ⟨k2, v2⟩ := hd
    by_cases hk : k2 = k
    · subst hk
      simp [assocSet, List.lookup]
    · have h1 : (k2 == k) = false := by simp [hk]
      have h2 : (k == k2) = false := by
        simp only [beq_eq_false_iff_ne, ne_eq]
        exact fun h => hk h.symm
      simp [assocSet, List.lookup, h1, h2, ih]

/-- Lookup of a different key after an update. -/
lemma lookup_assocSet_ne {α : Type} (l : List (String × α)) (k k2 : String)
    (v : α) (h : k2 ≠ k) : List.lookup k2 (assocSet l k v) = List.lookup k2 l := by
  induction l with
  | nil => simp [assocSet, List.lookup, beq_eq_false_iff_ne.mpr h]
  | cons hd tl ih =>
    obtain ⟨k3, v3⟩ := hd
    by_cases hk : k3 = k
    · subst hk
      simp [assocSet, List.lookup, beq_eq_false_iff_ne.mpr h]
    · simp only [assocSet, beq_eq_false_iff_ne.mpr hk, Bool.false_eq_true,
        if_false, List.lookup]
      by_cases hk2 : k2 = k3
      · subst hk2
        simp [List.lookup]
      · simp [List.lookup, beq_eq_false_iff_ne.mpr hk2, ih]

/-! ## Claim C2 -/

/-- C2: the claim says both liveness probes treat `pid <= 0` as dead without
probing and map permission-denied to alive. At pid 1234 with psutil
available and the probe reporting permission denied, `is_process_alive`
returns `false` (dead) — while its own `os.kill` fallback and
`PIDFileManager.is_process_running` return `true` at the very same probe
outcome, as the claim (and spec §4.2/§7) require. This evaluates the code at
the failing input. -/
theorem C2_permission_denied_divergence :
    is_process_alive 1234 true PsutilOutcome.accessDenied
      ProbeOutcome.permissionDenied = false ∧
    is_process_alive 1234 false PsutilOutcome.accessDenied
      ProbeOutcome.permissionDenied = true ∧
    PIDFileManager.is_process_running 1234 ProbeOutcome.permissionDenied = true ∧
    is_process_alive (-5) true PsutilOutcome.accessDenied
      ProbeOutcome.permissionDenied = false ∧
    PIDFileManager.is_process_running 0 ProbeOutcome.ok = false := by
  decide

/-! ## Claim C1 -/

/-- C1 counterexample: when the content write (or the rename) fails and the
cleanup unlink itself also fails — the double fault whose `OSError` the
source swallows with `except OSError: pass` — the error still propagates and
the destination is untouched, but the attempt's temporary file remains in
the directory, contradicting the claim's "the temporary file is removed".
Shown for a concrete `write_pid` (failing write) and a concrete
`write_state` (failing rename). -/
theorem C1_counterexample :
    (PIDFileManager.write_pid (some "7") 99 ⟨false, true, false, true⟩).ok
        = false ∧
    (PIDFileManager.write_pid (some "7") 99 ⟨false, true, false, true⟩).dest
        = some "7" ∧
    (PIDFileManager.write_pid (some "7") 99
        ⟨false, true, false, true⟩).tempLeft = true ∧
    (StateManager.write_state none sampleState
        ⟨false, false, true, true⟩).ok = false ∧
    (StateManager.write_state none sampleState
        ⟨false, false, true, true⟩).tempLeft = true := by
  exact ⟨rfl, rfl, rfl, rfl, rfl⟩

/-- C1 amended: for both `PIDFileManager.write_pid` and
`StateManager.write_state`, the call returns normally exactly when no write
step failed; on failure the error propagates and the previous destination
content is untouched, and removal of the temporary file is attempted but
best-effort — after a failure, a temporary file remains exactly when one was
created (the `mkstemp` step succeeded) and the cleanup unlink itself failed,
its `OSError` being swallowed; on success the destination holds the full new
content and no temporary file remains. A reader therefore only ever
observes the old or the new complete destination content. -/
theorem C1_atomic_write_best_effort_cleanup (dest0 : Option String)
    (dict0 : Option (List (String × JsonValue))) (pid : Int)
    (st : WorkflowState) (f : AtomicWriteFailures) :
    (((PIDFileManager.write_pid dest0 pid f).ok = false ↔
        (f.mkstempFails = true ∨ f.writeFails = true ∨ f.renameFails = true)) ∧
     ((PIDFileManager.write_pid dest0 pid f).ok = false →
        (PIDFileManager.write_pid dest0 pid f).dest = dest0) ∧
     ((PIDFileManager.write_pid dest0 pid f).ok = false →
        ((PIDFileManager.write_pid dest0 pid f).tempLeft = true ↔
          (f.mkstempFails = false ∧ f.unlinkFails = true))) ∧
     ((PIDFileManager.write_pid dest0 pid f).ok = true →
        (PIDFileManager.write_pid dest0 pid f).dest = some (toString pid) ∧
        (PIDFileManager.write_pid dest0 pid f).tempLeft = false)) ∧
    (((StateManager.write_state dict0 st f).ok = false ↔
        (f.mkstempFails = true ∨ f.writeFails = true ∨ f.renameFails = true)) ∧
     ((StateManager.write_state dict0 st f).ok = false →
        (StateManager.write_state dict0 st f).dest = dict0) ∧
     ((StateManager.write_state dict0 st f).ok = false →
        ((StateManager.write_state dict0 st f).tempLeft = true ↔
          (f.mkstempFails = false ∧ f.unlinkFails = true))) ∧
     ((StateManager.write_state dict0 st f).ok = true →
        (StateManager.write_state dict0 st f).dest =
          some (stateToJsonDict st) ∧
        (StateManager.write_state dict0 st f).tempLeft = false)) := by
  obtain ⟨m, w, r, u⟩ := f
  cases m <;> cases w <;> cases r <;> cases u <;>
    simp [PIDFileManager.write_pid, StateManager.write_state, atomicWrite]

/-- Witness for C1 (amended): a concrete failing content write whose cleanup
unlink succeeds leaves the old content in place, no temporary file, and the
error propagated. -/
theorem C1_witness :
    (PIDFileManager.write_pid (some "7") 99 ⟨false, true, false, false⟩).ok
        = false ∧
    (PIDFileManager.write_pid (some "7") 99 ⟨false, true, false, false⟩).dest
        = some "7" ∧
    (PIDFileManager.write_pid (some "7") 99
        ⟨false, true, false, false⟩).tempLeft = false := by
  have h := C1_atomic_write_best_effort_cleanup (some "7") none 99 sampleState
    ⟨false, true, false, false⟩
  have hok : (PIDFileManager.write_pid (some "7") 99
      ⟨false, true, false, false⟩).ok = false :=
    h.1.1.mpr (Or.inr (Or.inl rfl))
  refine ⟨hok, h.1.2.1 hok, ?_⟩
  simpa using h.1.2.2.1 hok

/-! ## Claim C3 -/

/-- C3 counterexample: launching with a successful spawn and PID write but a
failing initial state write surfaces a launch error, yet the PID record for
the workflow remains on disk afterward — contradicting the claim that no
PID record remains after a post-spawn failure. -/
theorem C3_counterexample :
    (WorkflowLauncher.launch_workflow ⟨none, none⟩ 42 "wf-1" 1234 dt2024
        ⟨false, false, true, false⟩).1 = Except.error () ∧
    (WorkflowLauncher.launch_workflow ⟨none, none⟩ 42 "wf-1" 1234 dt2024
        ⟨false, false, true, false⟩).2.pidFile = some 1234 ∧
    (WorkflowLauncher.launch_workflow ⟨none, none⟩ 42 "wf-1" 1234 dt2024
        ⟨false, false, true, false⟩).2.stateFile = none := by
  exact ⟨rfl, rfl, rfl⟩

/-- C3 amended: any failure of the spawn, the PID write or the initial state
write surfaces to the caller as a launch error (`RuntimeError`), but the
source attempts no cleanup: a failure before any write leaves the records
unchanged, while a failing state write after a successful PID write leaves
the freshly written PID record on disk; on success both records are
written. -/
theorem C3_launch_error_no_cleanup (fs : LaunchFS) (issue_id : Int)
    (adw_id : String) (pid : Int) (now : PyDateTime) (f : LaunchFailures) :
    (((WorkflowLauncher.launch_workflow fs issue_id adw_id pid now f).1 =
        Except.error ()) ↔
      (f.spawnFails = true ∨ f.writePidFails = true ∨
        f.writeStateFails = true)) ∧
    (f.spawnFails = true ∨ f.writePidFails = true →
      (WorkflowLauncher.launch_workflow fs issue_id adw_id pid now f).2 = fs) ∧
    (f.spawnFails = false → f.writePidFails = false →
      f.writeStateFails = true →
      (WorkflowLauncher.launch_workflow fs issue_id adw_id pid now f).2 =
        { fs with pidFile := some pid }) ∧
    (f.spawnFails = false → f.writePidFails = false →
      f.writeStateFails = false →
      (WorkflowLauncher.launch_workflow fs issue_id adw_id pid now f).1 =
        Except.ok adw_id ∧
      (WorkflowLauncher.launch_workflow fs issue_id adw_id pid now f).2 =
        ⟨some pid,
         some ⟨adw_id, issue_id, "initializing", pid, now, now, none, none⟩⟩) := by
  obtain ⟨s, p, w, d⟩ := f
  cases s <;> cases p <;> cases w <;>
    simp [WorkflowLauncher.launch_workflow]

/-- Witness for C3 (amended): at a concrete failing state write the launch
errors and the PID record remains. -/
theorem C3_witness :
    (WorkflowLauncher.launch_workflow ⟨none, none⟩ 7 "wf-2" 555 dt2024
        ⟨false, false, true, false⟩).2 =
      { pidFile := some 555, stateFile := none } := by
  exact (C3_launch_error_no_cleanup ⟨none, none⟩ 7 "wf-2" 555 dt2024
    ⟨false, false, true, false⟩).2.2.1 rfl rfl rfl

/-! ## Claim C10 -/

/-- C10: a `get_workflow_status` call that reads the state file successfully
stores the result in the shared cache even with `use_cache = false`
(returning the freshly read record), and any subsequent call with
`use_cache = true` within the 5-second TTL returns that cached record
without consulting the filesystem: its result is the cached record whatever
the state file now holds — also when the file has been modified or
deleted. -/
theorem C10_cache_stored_even_without_use_cache
    (cache : List (String × WorkflowState × Nat)) (wid : String)
    (st : WorkflowState) (now1 : Nat) :
    (WorkflowMonitor.get_workflow_status cache wid false (some st) now1).1 =
      some st ∧
    List.lookup wid
        (WorkflowMonitor.get_workflow_status cache wid false (some st) now1).2 =
      some (st, now1) ∧
    (∀ now2 : Nat, now2 - now1 < cache_ttl → ∀ file2 : Option WorkflowState,
      (WorkflowMonitor.get_workflow_status
          (WorkflowMonitor.get_workflow_status cache wid false (some st) now1).2
          wid true file2 now2).1 = some st) := by
  refine ⟨rfl, lookup_assocSet cache wid (st, now1), ?_⟩
  intro now2 h2 file2
  have hstep : (WorkflowMonitor.get_workflow_status cache wid false (some st)
      now1).2 = assocSet cache wid (st, now1) := rfl
  rw [hstep]
  simp [WorkflowMonitor.get_workflow_status, lookup_assocSet, h2]

/-- Witness for C10: a concrete first read populates the cache and a second
call 4.999 s later with `use_cache = true` returns the cached record even
though the state file has meanwhile been deleted. -/
theorem C10_witness :
    (WorkflowMonitor.get_workflow_status
        (WorkflowMonitor.get_workflow_status [] "wf-1" false (some sampleState)
            1000).2
        "wf-1" true none 5999).1 = some sampleState := by
  exact (C10_cache_stored_even_without_use_cache [] "wf-1" sampleState
    1000).2.2 5999 (by decide) none

/-! ## Claim C7 -/

/-- Optional string fields survive the JSON round trip. -/
lemma jsonToOption_optionToJson (x : Option String) :
    jsonToOption (optionToJson x) = some x := by
  cases x <;> rfl

/-- Serialized records parse back to the record that was serialized. -/
lemma stateFromJsonDict_stateToJsonDict (st : WorkflowState)
    (h : st.isValid = true) : stateFromJsonDict (stateToJsonDict st) = some st := by
  obtain ⟨wid, iid, stat, pid, sa, ua, cs, em⟩ := st
  simp only [WorkflowState.isValid, Bool.and_eq_true] at h
  obtain ⟨⟨hstat, hsa⟩, hua⟩ := h
  simp [stateFromJsonDict, stateToJsonDict, List.lookup,
    fromisoformat_isoformat _ hsa, fromisoformat_isoformat _ hua,
    jsonToOption_optionToJson, hstat]

/-- C7: for every valid record, a failure-free `write_state` followed by
`read_state` of the written file returns a record equal to the one written —
in particular the `started_at` / `updated_at` timestamps survive the
ISO-8601 serialization exactly (so at least to the second), whatever content
the destination held before. -/
theorem C7_write_read_roundtrip (st : WorkflowState)
    (dest0 : Option (List (String × JsonValue))) (h : st.isValid = true) :
    (StateManager.write_state dest0 st ⟨false, false, false, false⟩).ok = true ∧
    StateManager.read_state
        (StateManager.write_state dest0 st ⟨false, false, false, false⟩).dest =
      some st := by
  refine ⟨rfl, ?_⟩
  have hdest : (StateManager.write_state dest0 st
      ⟨false, false, false, false⟩).dest = some (stateToJsonDict st) := rfl
  rw [hdest]
  simpa [StateManager.read_state] using stateFromJsonDict_stateToJsonDict st h

/-- Witness for C7: a concrete record with a microsecond-bearing timestamp
round-trips exactly. -/
theorem C7_witness :
    StateManager.read_state
        (StateManager.write_state none
            ⟨"wf-3", 7, "completed", 99, dt2024, dt2024b, none, some "boom"⟩
            ⟨false, false, false, false⟩).dest =
      some ⟨"wf-3", 7, "completed", 99, dt2024, dt2024b, none, some "boom"⟩ := by
  exact (C7_write_read_roundtrip
    ⟨"wf-3", 7, "completed", 99, dt2024, dt2024b, none, some "boom"⟩ none
    (by decide)).2

/-! ## Claim C8 -/

/-- C8: every successful `update_state` re-stamps `updated_at` with the call
instant; when only the mutable fields (`status`, `current_step`,
`error_message`) are supplied, `workflow_id`, `issue_id`, `pid` and
`started_at` are carried over unchanged into the written record; and across
two successive successful updates the second record's `updated_at` is the
second call's instant, so `updated_at` is non-decreasing whenever the call
instants are, and `started_at` stays immutable. -/
theorem C8_update_restamps_and_frames (st : WorkflowState) (u u2 : StateUpdates)
    (now now2 : PyDateTime) (r : WorkflowState)
    (hr : StateManager.update_state (some st) u now = some r) :
    r.updated_at = now ∧
    (u.workflow_id = none → u.issue_id = none → u.pid = none →
      u.started_at = none →
      r.workflow_id = st.workflow_id ∧ r.issue_id = st.issue_id ∧
        r.pid = st.pid ∧ r.started_at = st.started_at) ∧
    (∀ r2, StateManager.update_state (some r) u2 now2 = some r2 →
      r2.updated_at = now2 ∧
      (now.rank ≤ now2.rank → r.updated_at.rank ≤ r2.updated_at.rank) ∧
      (u2.started_at = none → r2.started_at = r.started_at)) := by
  have hr2 : r = applyUpdates st u now := by
    simp only [StateManager.update_state] at hr
    split at hr
    · exact (Option.some.inj hr).symm
    · exact absurd hr (by simp)
  subst hr2
  refine ⟨rfl, ?_, ?_⟩
  · intro h1 h2 h3 h4
    simp [applyUpdates, h1, h2, h3, h4]
  · intro r2 hu2
    have hr3 : r2 = applyUpdates (applyUpdates st u now) u2 now2 := by
      simp only [StateManager.update_state] at hu2
      split at hu2
      · exact (Option.some.inj hu2).symm
      · exact absurd hu2 (by simp)
    subst hr3
    refine ⟨rfl, ?_, ?_⟩
    · intro hle
      simpa [applyUpdates] using hle
    · intro h5
      simp [applyUpdates, h5]

/-- Witness for C8: a concrete status-only update re-stamps `updated_at` and
leaves `started_at`, `workflow_id`, `issue_id` and `pid` unchanged. -/
theorem C8_witness :
    (applyUpdates sampleState
        { StateUpdates.empty with status := some "completed" } dt2024b).updated_at
      = dt2024b ∧
    (applyUpdates sampleState
        { StateUpdates.empty with status := some "completed" } dt2024b).started_at
      = sampleState.started_at := by
  have h := C8_update_restamps_and_frames sampleState
    { StateUpdates.empty with status := some "completed" } StateUpdates.empty
    dt2024b dt2024b
    (applyUpdates sampleState
      { StateUpdates.empty with status := some "completed" } dt2024b)
    (by decide)
  exact ⟨h.1, (h.2.1 rfl rfl rfl rfl).2.2.2⟩

/-! ## Claim C5 -/

/-- Orphaned entries (no PID file, status `initializing`/`running`) are
forced to `failed` and reported. -/
lemma recoverStep_orphan (pidDir : List String) (now : PyDateTime)
    (wid : String) (st : WorkflowState) (hpid : pidDir.contains wid = false)
    (hst : st.status = "initializing" ∨ st.status = "running") :
    recoverStep pidDir now (wid, some st) =
      ((wid, some { st with
          status := "failed"
          error_message := some orphanMessage
          updated_at := now }), some wid) := by
  have hp : wid ∉ pidDir := by simpa using hpid
  rcases hst with h | h <;>
    simp [recoverStep, hp, h, StateManager.update_state, applyUpdates,
      recoverUpdates, StateUpdates.empty, validStatus]

/-- Entries with a PID file, unreadable entries, and entries in another
status are passed through untouched and not reported. -/
lemma recoverStep_untouched (pidDir : List String) (now : PyDateTime)
    (e : String × Option WorkflowState)
    (h : pidDir.contains e.1 = true ∨
      (∀ st, e.2 = some st →
        ¬(st.status = "initializing" ∨ st.status = "running"))) :
    recoverStep pidDir now e = (e, none) := by
  obtain ⟨a, ost⟩ := e
  rcases h with h | h
  · have h2 : a ∈ pidDir := by simpa using h
    simp [recoverStep, h2]
  · by_cases hc : a ∈ pidDir
    · simp [recoverStep, hc]
    · cases ost with
      | none => simp [recoverStep, hc]
      | some st =>
        have h3 := h st rfl
        push_neg at h3
        simp [recoverStep, hc, h3.1, h3.2]

/-- An entry reported as recovered is exactly an orphaned one. -/
lemma recoverStep_snd_some (pidDir : List String) (now : PyDateTime)
    (e : String × Option WorkflowState) (wid : String)
    (h : (recoverStep pidDir now e).2 = some wid) :
    e.1 = wid ∧ pidDir.contains e.1 = false ∧
      ∃ st, e.2 = some st ∧
        (st.status = "initializing" ∨ st.status = "running") := by
  obtain ⟨a, ost⟩ := e
  by_cases hc : a ∈ pidDir
  · simp [recoverStep, hc] at h
  · cases ost with
    | none => simp [recoverStep, hc] at h
    | some st =>
      by_cases hb : st.status = "initializing" ∨ st.status = "running"
      · rcases hb with h1 | h1 <;>
        · simp [recoverStep, hc, h1, StateManager.update_state, applyUpdates,
            recoverUpdates, StateUpdates.empty, validStatus] at h
          subst h
          refine ⟨rfl, by simpa using hc, st, rfl, by simp [h1]⟩
      · push_neg at hb
        simp [recoverStep, hc, hb.1, hb.2] at h

/-- C5: after `recover_orphaned_workflows`, every state record with status
`initializing` or `running` and no PID file has been transitioned to
`failed` with the fixed non-empty orphan `error_message` (re-stamping
`updated_at`) and its id is in the returned list; every entry with a PID
file, or whose record is unreadable or already in another status (in
particular the terminal ones — `completed`, `failed`, `stopped`), is
carried over untouched; and the returned list holds exactly the orphaned
ids. -/
theorem C5_recover_orphans (stateDir : List (String × Option WorkflowState))
    (pidDir : List String) (now : PyDateTime) :
    (∀ wid st, (wid, some st) ∈ stateDir → pidDir.contains wid = false →
      (st.status = "initializing" ∨ st.status = "running") →
      (wid, some { st with
          status := "failed"
          error_message := some orphanMessage
          updated_at := now }) ∈
        (PIDFileManager.recover_orphaned_workflows stateDir pidDir now).1 ∧
      wid ∈ (PIDFileManager.recover_orphaned_workflows stateDir pidDir now).2 ∧
      orphanMessage ≠ "") ∧
    (∀ e ∈ stateDir, (pidDir.contains e.1 = true ∨
        (∀ st, e.2 = some st →
          ¬(st.status = "initializing" ∨ st.status = "running"))) →
      e ∈ (PIDFileManager.recover_orphaned_workflows stateDir pidDir now).1) ∧
    (∀ wid,
      wid ∈ (PIDFileManager.recover_orphaned_workflows stateDir pidDir now).2 ↔
      ∃ st, (wid, some st) ∈ stateDir ∧ pidDir.contains wid = false ∧
        (st.status = "initializing" ∨ st.status = "running")) := by
  refine ⟨?_, ?_, ?_⟩
  · intro wid st hmem hpid hst
    refine ⟨?_, ?_, by decide⟩
    · exact List.mem_map.mpr ⟨(wid, some st), hmem,
        by rw [recoverStep_orphan pidDir now wid st hpid hst]⟩
    · exact List.mem_filterMap.mpr ⟨(wid, some st), hmem,
        by rw [recoverStep_orphan pidDir now wid st hpid hst]⟩
  · intro e hmem h
    exact List.mem_map.mpr ⟨e, hmem,
      by rw [recoverStep_untouched pidDir now e h]⟩
  · intro wid
    constructor
    · intro h
      obtain ⟨e, hmem, hsnd⟩ := List.mem_filterMap.mp h
      obtain ⟨h1, h2, st, h3, h4⟩ := recoverStep_snd_some pidDir now e wid hsnd
      refine ⟨st, ?_, h1 ▸ h2, h4⟩
      have he : e = (wid, some st) := by
        obtain ⟨a, ost⟩ := e
        simp only at h1 h3
        rw [h1, h3]
      exact he ▸ hmem
    · intro hx
      obtain ⟨st, hmem, hpid, hst⟩ := hx
      exact List.mem_filterMap.mpr ⟨(wid, some st), hmem,
        by rw [recoverStep_orphan pidDir now wid st hpid hst]⟩

/-- Witness for C5: with one orphaned running workflow and one completed
one, exactly the orphan is transitioned and reported. -/
theorem C5_witness :
    ("wf-1", some { sampleState with
        status := "failed"
        error_message := some orphanMessage
        updated_at := dt2024b }) ∈
      (PIDFileManager.recover_orphaned_workflows
        [("wf-1", some sampleState),
         ("wf-2", some { sampleState with
            workflow_id := "wf-2"
            status := "completed" })] ["wf-2"] dt2024b).1 ∧
    "wf-1" ∈ (PIDFileManager.recover_orphaned_workflows
        [("wf-1", some sampleState),
         ("wf-2", some { sampleState with
            workflow_id := "wf-2"
            status := "completed" })] ["wf-2"] dt2024b).2 := by
  have h := (C5_recover_orphans
    [("wf-1", some sampleState),
     ("wf-2", some { sampleState with
        workflow_id := "wf-2"
        status := "completed" })] ["wf-2"] dt2024b).1 "wf-1" sampleState
    (by simp) (by decide) (Or.inr rfl)
  exact ⟨h.1, h.2.1⟩

/-! ## Claim C6 -/

/-- The scan of `cleanup_stale_pids` keeps exactly the live entries and
removes exactly the ids of the others, in scan order. -/
lemma cleanup_stale_pids_eq (dir : List (String × Option Int))
    (probeOf : Int → ProbeOutcome) :
    PIDFileManager.cleanup_stale_pids dir probeOf =
      (dir.filter (aliveEntry probeOf),
       (dir.filter (fun e => !(aliveEntry probeOf e))).map Prod.fst) := by
  induction dir with
  | nil => rfl
  | cons hd tl ih =>
    obtain ⟨wid, opid⟩ := hd
    cases opid with
    | none => simp [PIDFileManager.cleanup_stale_pids, aliveEntry, ih]
    | some p =>
      by_cases hp : PIDFileManager.is_process_running p (probeOf p) = true
      · simp [PIDFileManager.cleanup_stale_pids, aliveEntry, hp, ih]
      · simp only [Bool.not_eq_true] at hp
        simp [PIDFileManager.cleanup_stale_pids, aliveEntry, hp, ih]

/-- The active-workflow scan is the `activePair` projection of the
directory. -/
lemma list_active_workflows_eq (dir : List (String × Option Int))
    (probeOf : Int → ProbeOutcome) :
    PIDFileManager.list_active_workflows dir probeOf =
      dir.filterMap (activePair probeOf) := by
  induction dir with
  | nil => rfl
  | cons hd tl ih =>
    obtain ⟨wid, opid⟩ := hd
    cases opid with
    | none => simp [PIDFileManager.list_active_workflows, activePair, ih]
    | some p =>
      by_cases hp : PIDFileManager.is_process_running p (probeOf p) = true
      · simp [PIDFileManager.list_active_workflows, activePair, hp, ih]
      · simp only [Bool.not_eq_true] at hp
        simp [PIDFileManager.list_active_workflows, activePair, hp, ih]

/-- C6: over a PID directory whose files all hold a readable pid,
`cleanup_stale_pids` removes exactly the workflow ids whose recorded pid is
not alive (in scan order), keeps exactly the entries whose pid is alive, and
`list_active_workflows` run on the directory afterwards returns exactly the
`(workflow_id, pid)` pairs of the original directory whose pid is alive. -/
theorem C6_cleanup_stale_and_list_active (dir : List (String × Option Int))
    (probeOf : Int → ProbeOutcome)
    (_hread : ∀ e ∈ dir, e.2.isSome = true) :
    (PIDFileManager.cleanup_stale_pids dir probeOf).2 =
      (dir.filter (fun e => !(aliveEntry probeOf e))).map Prod.fst ∧
    (PIDFileManager.cleanup_stale_pids dir probeOf).1 =
      dir.filter (aliveEntry probeOf) ∧
    (∀ wid p, (wid, p) ∈ PIDFileManager.list_active_workflows
        (PIDFileManager.cleanup_stale_pids dir probeOf).1 probeOf ↔
      ((wid, some p) ∈ dir ∧
        PIDFileManager.is_process_running p (probeOf p) = true)) := by
  refine ⟨by rw [cleanup_stale_pids_eq], by rw [cleanup_stale_pids_eq], ?_⟩
  intro wid p
  rw [cleanup_stale_pids_eq]
  simp only [list_active_workflows_eq, List.mem_filterMap, List.mem_filter]
  constructor
  · intro hx
    obtain ⟨e, ⟨hmem, _⟩, hpair⟩ := hx
    obtain ⟨a, ost⟩ := e
    cases ost with
    | none => simp [activePair] at hpair
    | some q =>
      by_cases hq : PIDFileManager.is_process_running q (probeOf q) = true
      · simp [activePair, hq] at hpair
        obtain ⟨ha, hp⟩ := hpair
        subst ha
        subst hp
        exact ⟨hmem, hq⟩
      · simp only [Bool.not_eq_true] at hq
        simp [activePair, hq] at hpair
  · intro hx
    obtain ⟨hmem, hp⟩ := hx
    refine ⟨(wid, some p), ⟨hmem, ?_⟩, ?_⟩
    · simp [aliveEntry, hp]
    · simp [activePair, hp]

/-- Witness for C6: one live and one dead PID file; exactly the dead one is
removed and only the live one is listed afterwards. -/
theorem C6_witness :
    (PIDFileManager.cleanup_stale_pids
        [("wf-live", some 10), ("wf-dead", some 11)]
        (fun p => if p == 10 then ProbeOutcome.ok
          else ProbeOutcome.noSuchProcess)).2 = ["wf-dead"] ∧
    ("wf-live", 10) ∈ PIDFileManager.list_active_workflows
      (PIDFileManager.cleanup_stale_pids
        [("wf-live", some 10), ("wf-dead", some 11)]
        (fun p => if p == 10 then ProbeOutcome.ok
          else ProbeOutcome.noSuchProcess)).1
      (fun p => if p == 10 then ProbeOutcome.ok
        else ProbeOutcome.noSuchProcess) := by
  have h := C6_cleanup_stale_and_list_active
    [("wf-live", some 10), ("wf-dead", some 11)]
    (fun p => if p == 10 then ProbeOutcome.ok else ProbeOutcome.noSuchProcess)
    (by decide)
  refine ⟨by rw [h.1]; decide, ?_⟩
  exact (h.2.2 "wf-live" 10).mpr ⟨by decide, by decide⟩

/-! ## Claim C4 -/

/-- A poll observing the process dead exists inside the window iff the loop
reports early success. -/
lemma pollLoop_true_iff (alive : Nat → Bool) (fuel t : Nat) :
    (pollLoop alive t fuel).1 = true ↔
      ∃ i, t ≤ i ∧ i < t + fuel ∧ alive i = false := by
  induction fuel generalizing t with
  | zero =>
    simp only [pollLoop]
    constructor
    · intro h
      exact absurd h (by simp)
    · intro hx
      obtain ⟨i, h1, h2, _⟩ := hx
      omega
  | succ n ih =>
    by_cases ha : alive t = true
    · simp only [pollLoop, ha, if_true, ih]
      constructor
      · intro hx
        obtain ⟨i, h1, h2, h3⟩ := hx
        exact ⟨i, by omega, by omega, h3⟩
      · intro hx
        obtain ⟨i, h1, h2, h3⟩ := hx
        refine ⟨i, ?_, by omega, h3⟩
        rcases Nat.eq_or_lt_of_le h1 with he | hl
        · rw [← he, ha] at h3
          cases h3
        · omega
    · simp only [Bool.not_eq_true] at ha
      simp only [pollLoop, ha, Bool.false_eq_true, if_false]
      exact iff_of_true trivial ⟨t, by omega, by omega, ha⟩

/-- With the process alive at every poll of the window, the loop runs the
window out. -/
lemma pollLoop_all_alive (alive : Nat → Bool) (fuel t : Nat)
    (h : ∀ i, t ≤ i → i < t + fuel → alive i = true) :
    pollLoop alive t fuel = (false, t + fuel) := by
  induction fuel generalizing t with
  | zero => simp [pollLoop]
  | succ n ih =>
    have ha : alive t = true := h t (by omega) (by omega)
    simp only [pollLoop, ha, if_true]
    have := ih (t + 1) (fun i h1 h2 => h i (by omega) (by omega))
    rw [this]
    congr 1
    omega

/-- C4 counterexample: a process alive at the entry probe but gone by the
time the SIGTERM is sent (instant 1). `terminate_process` returns `false`
although the process is dead at the end of the (zero-length) window — and
stays dead at every later instant of this trace — contradicting the claim
that the call "returns true exactly when the process is dead at the end of
this window". -/
theorem C4_counterexample :
    terminate_process (fun t => decide (t = 0)) 3 =
      { result := false, termSent := true, killSent := false } ∧
    (fun t : Nat => decide (t = 0)) 1 = false ∧
    (fun t : Nat => decide (t = 0)) 7 = false := by
  exact ⟨rfl, rfl, rfl⟩

/-- C4 amended: `terminate_process` returns true immediately and sends no
signal when the pid is not alive at entry. Otherwise it attempts SIGTERM; if
that send fails (the process vanished between the liveness check and the
signal) it returns false at once, without polling and without SIGKILL.
Otherwise it polls at the fixed interval over the timeout window, returning
true without escalating as soon as a poll observes the process dead; if the
window runs out with the process alive at every poll, the escalation probe
decides: if alive, SIGKILL is sent, one more brief poll follows, and the
call returns true exactly when that final probe observes the process dead;
if already dead, no SIGKILL is sent and the final probe alone decides. -/
theorem C4_terminate_two_phase (alive : Nat → Bool) (polls : Nat) :
    (alive 0 = false →
      terminate_process alive polls =
        { result := true, termSent := false, killSent := false }) ∧
    (alive 0 = true → alive 1 = false →
      terminate_process alive polls =
        { result := false, termSent := true, killSent := false }) ∧
    (alive 0 = true → alive 1 = true →
      ((∃ i, 2 ≤ i ∧ i < 2 + polls ∧ alive i = false) →
        terminate_process alive polls =
          { result := true, termSent := true, killSent := false }) ∧
      ((∀ i, 2 ≤ i → i < 2 + polls → alive i = true) →
        alive (2 + polls) = true →
        terminate_process alive polls =
          { result := !(alive (2 + polls + 2)), termSent := true,
            killSent := true }) ∧
      ((∀ i, 2 ≤ i → i < 2 + polls → alive i = true) →
        alive (2 + polls) = false →
        terminate_process alive polls =
          { result := !(alive (2 + polls + 1)), termSent := true,
            killSent := false })) := by
  refine ⟨?_, ?_, ?_⟩
  · intro h0
    simp [terminate_process, h0]
  · intro h0 h1
    simp [terminate_process, h0, h1]
  · intro h0 h1
    refine ⟨?_, ?_, ?_⟩
    · intro hex
      have hloop : (pollLoop alive 2 polls).1 = true := by
        rw [pollLoop_true_iff]
        obtain ⟨i, ha, hb, hc⟩ := hex
        exact ⟨i, ha, by omega, hc⟩
      simp only [terminate_process, h0, h1, Bool.not_true, Bool.false_eq_true,
        if_false]
      rcases hp : pollLoop alive 2 polls with ⟨b, t⟩
      rw [hp] at hloop
      simp only at hloop
      subst hloop
      rfl
    · intro hall hesc
      have hloop : pollLoop alive 2 polls = (false, 2 + polls) := by
        have := pollLoop_all_alive alive polls 2 (fun i hi1 hi2 => hall i hi1 (by omega))
        rw [this]
      simp only [terminate_process, h0, h1, Bool.not_true, Bool.false_eq_true,
        if_false, hloop, hesc, if_true]
    · intro hall hesc
      have hloop : pollLoop alive 2 polls = (false, 2 + polls) := by
        have := pollLoop_all_alive alive polls 2 (fun i hi1 hi2 => hall i hi1 (by omega))
        rw [this]
      simp only [terminate_process, h0, h1, Bool.not_true, Bool.false_eq_true,
        if_false, hloop, hesc]

/-- Witness for C4: a concrete process that ignores SIGTERM through a
two-poll window and dies only after the SIGKILL escalation; the call reports
success with both signals sent. -/
theorem C4_witness :
    terminate_process (fun t => decide (t ≤ 4)) 2 =
      { result := true, termSent := true, killSent := true } := by
  have h := ((C4_terminate_two_phase (fun t => decide (t ≤ 4)) 2).2.2
    rfl rfl).2.1 (fun i h1 h2 => by simp; omega) rfl
  simpa using h

/-! ## Claim C9 -/

/-- Each `on_modified` call either leaves the handler unchanged and
dispatches nothing, or dispatches the event's id at the event instant — the
latter only when at least the debounce interval has passed since the id's
recorded last dispatch — stamping `last_event_time`. -/
lemma on_modified_cases (h : StateFileEventHandler) (e : FsEvent) :
    StateFileEventHandler.on_modified h e = (h, none) ∨
    (∃ wid, wid = pathStem e.src_path ∧
      h.lastDispatch wid + debounce_interval ≤ e.time ∧
      StateFileEventHandler.on_modified h e =
        (⟨h.callbacks, assocSet h.last_event_time wid e.time⟩,
         some (wid, e.time))) := by
  by_cases hd : e.is_directory = true
  · exact Or.inl (by simp [StateFileEventHandler.on_modified, hd])
  · by_cases hj : e.src_path.endsWith ".json" = true
    · by_cases hcb : h.callbacks.contains (pathStem e.src_path) = true
      · have hcb2 : pathStem e.src_path ∈ h.callbacks := by simpa using hcb
        by_cases hdeb : e.time -
            (List.lookup (pathStem e.src_path) h.last_event_time).getD 0 <
            debounce_interval
        · exact Or.inl (by
            simp [StateFileEventHandler.on_modified, hd, hj, hcb2, hdeb])
        · refine Or.inr ⟨pathStem e.src_path, rfl, ?_, ?_⟩
          · have hD : debounce_interval = 100 := rfl
            simp only [StateFileEventHandler.lastDispatch]
            omega
          · simp [StateFileEventHandler.on_modified, hd, hj, hcb2, hdeb]
      · have hcb2 : pathStem e.src_path ∉ h.callbacks := by simpa using hcb
        exact Or.inl (by simp [StateFileEventHandler.on_modified, hd, hj, hcb2])
    · exact Or.inl (by simp [StateFileEventHandler.on_modified, hd, hj])

/-- Invariant of an event run: for every id, the recorded last-dispatch
instant followed by the dispatch instants of the run forms a chain with
gaps of at least the debounce interval, and the final recorded instant is
the last of them. -/
lemma runEvents_invariant (evs : List FsEvent) :
    ∀ (h : StateFileEventHandler) (wid : String),
    List.Chain' (fun a b => a + debounce_interval ≤ b)
      (h.lastDispatch wid :: dispatchTimes wid (runEvents h evs).2) ∧
    (runEvents h evs).1.lastDispatch wid =
      (dispatchTimes wid (runEvents h evs).2).getLastD (h.lastDispatch wid) := by
  induction evs with
  | nil => intro h wid; simp [runEvents, dispatchTimes]
  | cons e rest ih =>
    intro h wid
    rcases on_modified_cases h e with hc | ⟨wid2, hw, hge, hc⟩
    · simpa [runEvents, hc] using ih h wid
    · by_cases hww : wid2 = wid
      · subst hww
        have hlast : (StateFileEventHandler.mk h.callbacks
            (assocSet h.last_event_time wid2 e.time)).lastDispatch wid2 = e.time := by
          simp [StateFileEventHandler.lastDispatch, lookup_assocSet]
        have ih2 := ih ⟨h.callbacks, assocSet h.last_event_time wid2 e.time⟩ wid2
        rw [hlast] at ih2
        simp only [runEvents, hc, Option.toList, List.cons_append,
          List.nil_append]
        have hdt : dispatchTimes wid2 ((wid2, e.time) ::
            (runEvents ⟨h.callbacks, assocSet h.last_event_time wid2 e.time⟩
              rest).2) =
            e.time :: dispatchTimes wid2
              (runEvents ⟨h.callbacks, assocSet h.last_event_time wid2 e.time⟩
                rest).2 := by
          simp [dispatchTimes]
        rw [hdt]
        constructor
        · exact List.chain'_cons.mpr ⟨hge, ih2.1⟩
        · rw [List.getLastD_cons]
          exact ih2.2
      · have hne : ((wid2, e.time).1 == wid) = false := by
          simp only [beq_eq_false_iff_ne, ne_eq]
          exact hww
        have hlast : (StateFileEventHandler.mk h.callbacks
            (assocSet h.last_event_time wid2 e.time)).lastDispatch wid =
            h.lastDispatch wid := by
          simp [StateFileEventHandler.lastDispatch,
            lookup_assocSet_ne h.last_event_time wid2 wid e.time
              (fun hx => hww hx.symm)]
        have ih2 := ih ⟨h.callbacks, assocSet h.last_event_time wid2 e.time⟩ wid
        rw [hlast] at ih2
        simpa [runEvents, hc, dispatchTimes, Option.toList, List.filter_cons,
          hne] using ih2

/-- Every dispatched callback carries the id and instant of one of the run's
events. -/
lemma runEvents_dispatch_mem (evs : List FsEvent) :
    ∀ (h : StateFileEventHandler) (d : String × Nat),
    d ∈ (runEvents h evs).2 → ∃ e ∈ evs, d = (pathStem e.src_path, e.time) := by
  induction evs with
  | nil => intro h d hd; simp [runEvents] at hd
  | cons e rest ih =>
    intro h d hd
    rcases on_modified_cases h e with hc | ⟨wid2, hw, hge, hc⟩
    · simp only [runEvents, hc, Option.toList, List.nil_append] at hd
      obtain ⟨e2, he2, hde⟩ := ih h d hd
      exact ⟨e2, List.mem_cons_of_mem e he2, hde⟩
    · simp only [runEvents, hc, Option.toList, List.cons_append,
        List.nil_append, List.mem_cons] at hd
      rcases hd with hd | hd
      · exact ⟨e, List.mem_cons_self e rest, by rw [hd, hw]⟩
      · obtain ⟨e2, he2, hde⟩ :=
          ih ⟨h.callbacks, assocSet h.last_event_time wid2 e.time⟩ d hd
        exact ⟨e2, List.mem_cons_of_mem e he2, hde⟩

/-- C9: over any event sequence, the dispatch instants for each workflow id
are at least the 100 ms debounce interval apart — a callback is dispatched
only when at least the interval has elapsed since the last dispatched
callback for the same id (the first conjunct also covers the handler's
initial default stamp of 0); consequently five writes to one workflow's
state file within a window shorter than the interval produce strictly fewer
than five callback invocations. -/
theorem C9_debounced_dispatch (cbs : List String) (evs : List FsEvent)
    (wid p : String) (a : Nat) :
    List.Chain' (fun t u => t + debounce_interval ≤ u)
      (dispatchTimes wid
        (runEvents (StateFileEventHandler.init cbs) evs).2) ∧
    (evs.length = 5 → (∀ e ∈ evs, e.src_path = p) →
      (∀ e ∈ evs, a ≤ e.time ∧ e.time < a + debounce_interval) →
      (runEvents (StateFileEventHandler.init cbs) evs).2.length < 5) := by
  constructor
  · exact (runEvents_invariant evs (StateFileEventHandler.init cbs) wid).1.tail
  · intro hlen hpath hwin
    by_contra hge
    push_neg at hge
    have hall : ∀ d ∈ (runEvents (StateFileEventHandler.init cbs) evs).2,
        (d.1 == pathStem p) = true := by
      intro d hd
      obtain ⟨e, he, hde⟩ :=
        runEvents_dispatch_mem evs (StateFileEventHandler.init cbs) d hd
      rw [hde]
      simp [hpath e he]
    have hfil : dispatchTimes (pathStem p)
        (runEvents (StateFileEventHandler.init cbs) evs).2 =
        (runEvents (StateFileEventHandler.init cbs) evs).2.map Prod.snd := by
      unfold dispatchTimes
      rw [List.filter_eq_self.mpr hall]
    have htime : ∀ t ∈ dispatchTimes (pathStem p)
        (runEvents (StateFileEventHandler.init cbs) evs).2,
        a ≤ t ∧ t < a + debounce_interval := by
      rw [hfil]
      intro t ht
      obtain ⟨d, hd, hdt⟩ := List.mem_map.mp ht
      obtain ⟨e, he, hde⟩ :=
        runEvents_dispatch_mem evs (StateFileEventHandler.init cbs) d hd
      have : t = e.time := by rw [← hdt, hde]
      rw [this]
      exact hwin e he
    have hlen2 : 2 ≤ (dispatchTimes (pathStem p)
        (runEvents (StateFileEventHandler.init cbs) evs).2).length := by
      rw [hfil, List.length_map]
      omega
    have hchain := (runEvents_invariant evs
      (StateFileEventHandler.init cbs) (pathStem p)).1.tail
    rcases hdt : dispatchTimes (pathStem p)
        (runEvents (StateFileEventHandler.init cbs) evs).2 with _ | ⟨t1, l2⟩
    · rw [hdt] at hlen2
      simp at hlen2
    · rcases l2 with _ | ⟨t2, rest⟩
      · rw [hdt] at hlen2
        simp at hlen2
      · rw [hdt] at hchain htime
        have h12 := (List.chain'_cons.mp hchain).1
        have ht1 := htime t1 (by simp)
        have ht2 := htime t2 (by simp)
        omega

/-- Witness for C9: five writes to `w1.json` spread over 40 ms (shorter than
the 100 ms debounce window) yield fewer than five dispatched callbacks. -/
theorem C9_witness :
    (runEvents (StateFileEventHandler.init ["w1"])
      [⟨false, "w1.json", 1000⟩, ⟨false, "w1.json", 1010⟩,
       ⟨false, "w1.json", 1020⟩, ⟨false, "w1.json", 1030⟩,
       ⟨false, "w1.json", 1040⟩]).2.length < 5 := by
  exact (C9_debounced_dispatch ["w1"]
    [⟨false, "w1.json", 1000⟩, ⟨false, "w1.json", 1010⟩,
     ⟨false, "w1.json", 1020⟩, ⟨false, "w1.json", 1030⟩,
     ⟨false, "w1.json", 1040⟩] "w1" "w1.json" 1000).2 rfl (by decide)
    (by decide)
